import Mathlib

/-!
Shallow embedding of ghkdxofla/tiny-editor (Rust) for checking its
natural-language specification.

Source files embedded:
- src/rust/src/editor.rs  : `Editor` (unit struct), `impl Drop`, `run`,
  `enable_raw_mode`, `disable_raw_mode`
- src/rust/src/reader.rs  : `Reader::read_key`
- src/rust/src/editor/output.rs : `Output::clear_screen`, `draw_rows`,
  `refresh_screen`
- src/rust/src/main.rs    : `main`

External dependency: the crossterm crate. Its raw-mode entry points
`terminal::enable_raw_mode` / `terminal::disable_raw_mode` keep a global
"original terminal mode" slot: enabling when already enabled is a no-op,
and disabling when the slot is empty (raw mode not active) is a no-op that
returns Ok. We embed that documented state machine explicitly
(`TermState.savedOriginal` is the global slot), parameterised by the
underlying terminal-attribute syscall `sys`, which may fail.

I/O is embedded by making the event stream explicit: each iteration of a
polling loop consumes one `Slot` describing what the terminal delivered
during that 500 ms poll window (nothing, a non-key event, a key event, or
an I/O error from `poll`/`read`). A loop applied to a finite slot list
either returns, or is `stillRunning`/`stillLooping`, meaning it consumed
the whole list and is still iterating.
-/

namespace TinyEditor

/-- Terminal input mode (glossary: raw mode vs the normal cooked mode). -/
inductive TermMode
  | normal
  | raw
deriving DecidableEq, Repr

/-- Error from the underlying terminal-attribute syscalls (crossterm's
`ErrorKind` for raw-mode switching). -/
inductive TermError
  | notSupported
  | writeFailed
deriving DecidableEq, Repr

/-- The crossterm-global terminal state: the current mode plus the
`TERMINAL_MODE_PRIOR_RAW_MODE` slot that crossterm fills on the first
successful enable and empties on a successful disable. -/
structure TermState where
  mode : TermMode
  savedOriginal : Option TermMode
deriving DecidableEq, Repr

/-- crossterm `terminal::enable_raw_mode`: if an original mode is already
saved, return Ok without touching the terminal; otherwise set the raw
attributes via the syscall `sys` and, on success, save the prior mode. -/
def crosstermEnable (sys : TermMode → Except TermError Unit) (s : TermState) :
    Except TermError TermState :=
  match s.savedOriginal with
  | some _ => Except.ok s
  | none =>
    match sys TermMode.raw with
    | Except.ok _ => Except.ok ⟨TermMode.raw, some s.mode⟩
    | Except.error e => Except.error e

/-- crossterm `terminal::disable_raw_mode`: if no original mode is saved
(raw mode not active), return Ok without touching the terminal; otherwise
restore the saved mode via `sys` and, on success, empty the slot. -/
def crosstermDisable (sys : TermMode → Except TermError Unit) (s : TermState) :
    Except TermError TermState :=
  match s.savedOriginal with
  | none => Except.ok s
  | some m =>
    match sys m with
    | Except.ok _ => Except.ok ⟨m, none⟩
    | Except.error e => Except.error e

/-- The `expect` messages appearing in the source, as abstract tags:
`enableRawModeError` is the string "enable_raw_mode error" (editor.rs:51),
`disableRawModeError` is "disable_raw_mode error" (editor.rs:55),
`readError` is "read error" (main.rs:14). -/
inductive PanicMsg
  | enableRawModeError
  | disableRawModeError
  | readError
deriving DecidableEq, Repr

/-- Outcome of a Rust call that either returns a value or panics
(`Result::expect`). -/
inductive PanicOr (α : Type)
  | ok (a : α)
  | panicked (m : PanicMsg)
deriving DecidableEq, Repr

/-- editor.rs `Editor::enable_raw_mode`:
`terminal::enable_raw_mode().expect("enable_raw_mode error")`.
Returns unit (here: the new terminal state) or panics; there is no error
return. -/
def Editor.enable_raw_mode (sys : TermMode → Except TermError Unit)
    (s : TermState) : PanicOr TermState :=
  match crosstermEnable sys s with
  | Except.ok t => PanicOr.ok t
  | Except.error _ => PanicOr.panicked PanicMsg.enableRawModeError

/-- editor.rs `Editor::disable_raw_mode`:
`terminal::disable_raw_mode().expect("disable_raw_mode error")`. -/
def Editor.disable_raw_mode (sys : TermMode → Except TermError Unit)
    (s : TermState) : PanicOr TermState :=
  match crosstermDisable sys s with
  | Except.ok t => PanicOr.ok t
  | Except.error _ => PanicOr.panicked PanicMsg.disableRawModeError

/-- editor.rs `impl Drop for Editor`: `drop` calls `self.disable_raw_mode()`. -/
def Editor.dropEditor (sys : TermMode → Except TermError Unit)
    (s : TermState) : PanicOr TermState :=
  Editor.disable_raw_mode sys s

/-- A syscall that always succeeds (a healthy terminal). -/
def okSys : TermMode → Except TermError Unit := fun _ => Except.ok ()

/-- A syscall that always fails with `notSupported` (a terminal that does
not support raw mode). -/
def failSys : TermMode → Except TermError Unit :=
  fun _ => Except.error TermError.notSupported

/-- crossterm `KeyModifiers` bitflags, one Bool per flag.
`KeyModifiers::NONE` is all-false. -/
structure KeyModifiers where
  shift : Bool
  control : Bool
  alt : Bool
  sup : Bool
  hyper : Bool
  meta : Bool
deriving DecidableEq, Repr

/-- `KeyModifiers::NONE`. -/
def KeyModifiers.NONE : KeyModifiers := ⟨false, false, false, false, false, false⟩

/-- crossterm `KeyCode` (the variants relevant to this program; `other`
stands for every remaining variant, none of which editor.rs matches). -/
inductive KeyCode
  | char (c : Char)
  | enter
  | esc
  | backspace
  | tab
  | up
  | down
  | left
  | right
  | other
deriving DecidableEq, Repr

/-- crossterm `KeyEvent`: the two fields the source's pattern names
(`code`, `modifiers`); any further fields are ignored by the `..` rest
pattern in editor.rs and are not modelled. -/
structure KeyEvent where
  code : KeyCode
  modifiers : KeyModifiers
deriving DecidableEq, Repr

/-- The quit pattern of editor.rs lines 33-37:
`KeyEvent { code: KeyCode::Char('q'), modifiers: KeyModifiers::NONE, .. }`. -/
def isQuitKey (k : KeyEvent) : Bool :=
  match k.code with
  | KeyCode.char c => decide (c = 'q') && decide (k.modifiers = KeyModifiers.NONE)
  | _ => false

/-- An I/O error value (`std::io::Error`) raised by `event::poll` or
`event::read`. -/
inductive IoErr
  | fault
  | broken
deriving DecidableEq, Repr

/-- What one 500 ms poll window of the terminal event stream delivers:
`pollErr e` — `event::poll` returns `Err(e)`;
`noInput` — `event::poll` returns `Ok(false)` (timeout, nothing pending);
`readErr e` — `poll` returns `Ok(true)` but `event::read` returns `Err(e)`;
`nonKey` — `event::read` returns an event that is not `Event::Key`;
`key k` — `event::read` returns `Event::Key(k)`. -/
inductive Slot
  | pollErr (e : IoErr)
  | noInput
  | readErr (e : IoErr)
  | nonKey
  | key (k : KeyEvent)
deriving DecidableEq, Repr

deriving instance DecidableEq for Except

/-- Outcome of `Reader::read_key` run against a finite slot list:
either the call returned (`Ok(KeyEvent)` or `Err`), or it consumed every
slot and is still inside its `loop`. -/
inductive ReadOutcome
  | returned (r : Except IoErr KeyEvent)
  | stillLooping
deriving DecidableEq, Repr

/-- reader.rs `Reader::read_key` (lines 8-16): loop forever; each
iteration polls with a 500 ms timeout (`?` propagates poll errors), and
when an event is available reads it (`?` propagates read errors),
returning `Ok(event)` only for `Event::Key`; every other outcome repeats
the loop. -/
def Reader.read_key : List Slot → ReadOutcome
  | [] => ReadOutcome.stillLooping
  | Slot.pollErr e :: _ => ReadOutcome.returned (Except.error e)
  | Slot.noInput :: rest => Reader.read_key rest
  | Slot.readErr e :: _ => ReadOutcome.returned (Except.error e)
  | Slot.nonKey :: rest => Reader.read_key rest
  | Slot.key k :: _ => ReadOutcome.returned (Except.ok k)

/-- Outcome of the `loop` inside `Editor::run` against a finite slot
list: `returned (Except.ok ())` means the loop broke out (the `break` on
the quit pattern), `returned (Except.error e)` means a `?` propagated an
I/O error out of `run`, `stillRunning` means every slot was consumed and
the loop is still iterating. -/
inductive RunOutcome
  | returned (r : Except IoErr Unit)
  | stillRunning
deriving DecidableEq, Repr

/-- The `loop` of editor.rs `Editor::run` (lines 29-44): poll with a
500 ms timeout (`?` propagates errors); if an event is pending, read it
(`?` propagates errors); if it is a key event matching
`Char('q')`/`NONE`, `break`; everything else falls to the wildcard arm
and the loop repeats. -/
def Editor.runLoop : List Slot → RunOutcome
  | [] => RunOutcome.stillRunning
  | Slot.pollErr e :: _ => RunOutcome.returned (Except.error e)
  | Slot.noInput :: rest => Editor.runLoop rest
  | Slot.readErr e :: _ => RunOutcome.returned (Except.error e)
  | Slot.nonKey :: rest => Editor.runLoop rest
  | Slot.key k :: rest =>
    if isQuitKey k then RunOutcome.returned (Except.ok ()) else Editor.runLoop rest

/-- Result of a whole `Editor::run` call: a panic (from the `expect`
calls inside `enable_raw_mode`/`disable_raw_mode`), a return carrying the
`std::io::Result<()>` and the terminal state at the moment of return, or
`running` when the slot list was exhausted with the loop still going
(terminal state at that moment attached). -/
inductive RunResult
  | panicked (m : PanicMsg)
  | returned (r : Except IoErr Unit) (t : TermState)
  | running (t : TermState)
deriving DecidableEq, Repr

/-- editor.rs `Editor::run` (lines 26-48): `enable_raw_mode` (panics on
failure), then the loop; a `?` error returns `Err` immediately — note the
final `disable_raw_mode()` on line 46 is NOT executed on that path — and
breaking out on the quit key runs `disable_raw_mode` then returns
`Ok(())`. -/
def Editor.run (sys : TermMode → Except TermError Unit) (slots : List Slot)
    (t : TermState) : RunResult :=
  match Editor.enable_raw_mode sys t with
  | PanicOr.panicked m => RunResult.panicked m
  | PanicOr.ok t1 =>
    match Editor.runLoop slots with
    | RunOutcome.stillRunning => RunResult.running t1
    | RunOutcome.returned (Except.error e) => RunResult.returned (Except.error e) t1
    | RunOutcome.returned (Except.ok _) =>
      match Editor.disable_raw_mode sys t1 with
      | PanicOr.panicked m => RunResult.panicked m
      | PanicOr.ok t2 => RunResult.returned (Except.ok ()) t2

/-- The control state of `Editor::run`'s loop: either still inside the
`loop` (`running`) or past the `break` (`terminated`). These are the only
two control states the code has. -/
inductive RunMode
  | running
  | terminated
deriving DecidableEq, Repr

/-- The editor state as the spec's state machine sees it: the loop's
control state plus the `dirty` counter. `dirty` is only DECLARED in the
repository (src/rust/src/editor/config.rs, field `dirty` of `Config`);
no code ever constructs a `Config`, reads `dirty`, or writes it, so it is
carried here as an inert component that no transition touches. -/
structure EditorState where
  mode : RunMode
  dirty : Nat
deriving DecidableEq, Repr

/-- The per-key-event transition of the `match` in editor.rs lines 32-41:
in the loop (`running`), the quit pattern breaks out (`terminated`) and
every other key event falls to the wildcard arm `_ => {}`, which does
nothing; nothing in either arm mentions `dirty`. -/
def editorStep (s : EditorState) (k : KeyEvent) : EditorState :=
  match s.mode with
  | RunMode.terminated => s
  | RunMode.running =>
    if isQuitKey k then ⟨RunMode.terminated, s.dirty⟩ else s

/-- One terminal write performed by a crossterm `execute!` invocation in
output.rs (each `execute!` queues its commands and flushes them: one
write/flush per invocation). -/
inductive TermWrite
  | clearAll
  | moveTo (x y : Nat)
deriving DecidableEq, Repr

/-- output.rs `Output::clear_screen` (lines 12-15): two separate
`execute!` invocations — `Clear(ClearType::All)` then `MoveTo(0, 0)` —
hence two writes. -/
def Output.clear_screen : List TermWrite :=
  [TermWrite.clearAll, TermWrite.moveTo 0 0]

/-- output.rs `Output::draw_rows` (lines 21-23): calls `clear_screen`. -/
def Output.draw_rows : List TermWrite :=
  Output.clear_screen

/-- output.rs `Output::refresh_screen` (lines 25-28): `clear_screen()?`
then `draw_rows()` — the writes of both, in order. -/
def Output.refresh_screen : List TermWrite :=
  Output.clear_screen ++ Output.draw_rows

/-- A line printed by `main` via `println!`. File paths are modelled
abstractly by a type parameter `α` (their contents never matter):
`openFile p` is the line `open a file: p` (main.rs:11) and `readByte b`
is the line `read: [b]` (main.rs:15). -/
inductive OutLine (α : Type)
  | openFile (p : α)
  | readByte (b : Nat)
deriving DecidableEq, Repr

/-- What a `main` run produces: the process exit code and the lines
printed to stdout, in order. -/
structure MainResult (α : Type) where
  exitCode : Nat
  output : List (OutLine α)
deriving DecidableEq, Repr

/-- The `while` loop of main.rs lines 13-16: read one byte at a time from
stdin (a byte list; `read` returns 1 while bytes remain and 0 at end, and
the `expect` on it never fires in this model since the list is pure);
stop without printing when the byte is `b'q'` (113); otherwise print
`read: [b]` and continue. -/
def echoLoop {α : Type} : List Nat → List (OutLine α)
  | [] => []
  | b :: rest =>
    if b = 113 then [] else OutLine.readByte b :: echoLoop rest

/-- main.rs `main` (lines 6-18): collect the arguments; if there is more
than one (a path was given), call `terminal::enable_raw_mode()` with
`expect` (panic on failure), print `open a file: <args[1]>`, then run the
byte-echo loop; with no path argument, do nothing at all. Either way the
function returns normally (exit code 0) and `disable_raw_mode` is never
called — `Editor` and its `Drop` guard are unused by `main`. -/
def mainFn {α : Type} (sys : TermMode → Except TermError Unit)
    (args : List α) (stdin : List Nat) (t : TermState) :
    PanicOr (MainResult α × TermState) :=
  if h : 1 < args.length then
    match crosstermEnable sys t with
    | Except.error _ => PanicOr.panicked PanicMsg.enableRawModeError
    | Except.ok t1 =>
      PanicOr.ok (⟨0, OutLine.openFile (args.get ⟨1, h⟩) :: echoLoop stdin⟩, t1)
  else
    PanicOr.ok (⟨0, []⟩, t)

/-- A slot the loop of `Editor::run` passes through without returning or
breaking: a timed-out poll, a non-key event, or a key event that does not
match the quit pattern. Taken from the claim's reading of the loop. -/
def continueSlot : Slot → Bool
  | Slot.noInput => true
  | Slot.nonKey => true
  | Slot.key k => !isQuitKey k
  | Slot.pollErr _ => false
  | Slot.readErr _ => false

/-- The claim's termination condition, in its own words: somewhere in the
stream a key event with code `Char('q')` and an empty modifier set is
read, and every slot before it leaves the loop running. -/
def QuitRead (slots : List Slot) : Prop :=
  ∃ pre k post, slots = pre ++ Slot.key k :: post ∧ isQuitKey k = true ∧
    ∀ s ∈ pre, continueSlot s = true

/-- Claim C1 (code bug): evaluating `main` at the failing input — invoked
with a file-path argument (args `[0, 1]`, paths abstracted as numbers)
and stdin delivering the single byte `q` — the process takes its normal
exit path (exit code 0) with the terminal still in raw mode:
`enable_raw_mode` was called but `disable_raw_mode` never is (`Editor`
and its `Drop` guard are unused by `main`), contradicting the claim that
the terminal is back in normal mode by process end whenever raw mode was
enabled. -/
theorem main_exits_in_raw_mode :
    mainFn okSys ([0, 1] : List Nat) [113] ⟨TermMode.normal, none⟩ =
      PanicOr.ok (⟨0, [OutLine.openFile 1]⟩, ⟨TermMode.raw, some TermMode.normal⟩) ∧
    TermMode.raw ≠ TermMode.normal := by
  decide

/-- Claim C2 (counterexample): with `dirty = 1` (> 0), the quit key in
`Running` transitions DIRECTLY to `Terminated` in one step — not to a
`ConfirmQuitWithUnsavedChanges` state, which does not exist in the code —
refuting the claim that a positive dirty count defers termination behind
additional quit keypresses. -/
theorem quit_with_dirty_counterexample :
    editorStep ⟨RunMode.running, 1⟩ ⟨KeyCode.char 'q', KeyModifiers.NONE⟩ =
      ⟨RunMode.terminated, 1⟩ := by
  decide

/-- Claim C2 (amended): on the quit key in `Running` the editor
transitions directly to `Terminated` for EVERY dirty count, and any
non-quit key leaves the state (including `dirty`) unchanged; no
confirmation state or counter exists. -/
theorem quit_ignores_dirty (d : Nat) (k : KeyEvent) (hk : isQuitKey k = false) :
    editorStep ⟨RunMode.running, d⟩ ⟨KeyCode.char 'q', KeyModifiers.NONE⟩ =
      ⟨RunMode.terminated, d⟩ ∧
    editorStep ⟨RunMode.running, d⟩ k = ⟨RunMode.running, d⟩ := by
  refine ⟨rfl, ?_⟩
  simp [editorStep, hk]

/-- Concrete instance of `quit_ignores_dirty` at `dirty = 1` with the
plain `a` key as the non-quit key. -/
theorem quit_ignores_dirty_witness :
    editorStep ⟨RunMode.running, 1⟩ ⟨KeyCode.char 'q', KeyModifiers.NONE⟩ =
      ⟨RunMode.terminated, 1⟩ ∧
    editorStep ⟨RunMode.running, 1⟩ ⟨KeyCode.char 'a', KeyModifiers.NONE⟩ =
      ⟨RunMode.running, 1⟩ :=
  quit_ignores_dirty 1 ⟨KeyCode.char 'a', KeyModifiers.NONE⟩ (by decide)

/-- Claim C3: `disable_raw_mode` is total and idempotent at the public
interface — when raw mode was never enabled (no saved original mode) it
returns without panicking and leaves the terminal state unchanged, for
ANY behaviour of the underlying syscall (none is made); and after any
successful disable, every further call (under any syscall behaviour) is a
non-panicking no-op. -/
theorem disable_idempotent_total (sys sys2 : TermMode → Except TermError Unit)
    (s s2 : TermState) :
    (s.savedOriginal = none → Editor.disable_raw_mode sys s = PanicOr.ok s) ∧
    (Editor.disable_raw_mode sys s = PanicOr.ok s2 →
      Editor.disable_raw_mode sys2 s2 = PanicOr.ok s2) := by
  constructor
  · intro h
    simp [Editor.disable_raw_mode, crosstermDisable, h]
  · intro h
    have h2 : s2.savedOriginal = none := by
      rcases s with ⟨m0, so⟩
      cases so with
      | none =>
        simp [Editor.disable_raw_mode, crosstermDisable] at h
        rw [← h]
      | some m =>
        cases hsys : sys m with
        | ok u =>
          simp [Editor.disable_raw_mode, crosstermDisable, hsys] at h
          rw [← h]
        | error e =>
          simp [Editor.disable_raw_mode, crosstermDisable, hsys] at h
    simp [Editor.disable_raw_mode, crosstermDisable, h2]

/-- Concrete instance of `disable_idempotent_total`: disabling on a
never-enabled terminal is an Ok no-op, and disabling again right after
the successful disable of an enabled terminal is an Ok no-op. -/
theorem disable_idempotent_total_witness :
    Editor.disable_raw_mode okSys ⟨TermMode.normal, none⟩ =
      PanicOr.ok ⟨TermMode.normal, none⟩ ∧
    Editor.disable_raw_mode okSys ⟨TermMode.normal, none⟩ =
      PanicOr.ok ⟨TermMode.normal, none⟩ :=
  ⟨(disable_idempotent_total okSys okSys ⟨TermMode.normal, none⟩
      ⟨TermMode.normal, none⟩).1 rfl,
   (disable_idempotent_total okSys okSys ⟨TermMode.raw, some TermMode.normal⟩
      ⟨TermMode.normal, none⟩).2 (by decide)⟩

/-- Claim C4 (counterexample): after one hundred consecutive timed-out
500 ms polls with no input available, `Reader::read_key` has still not
returned — it is still inside its `loop` — refuting the claim that the
call returns (with `None`) within one poll timeout; indeed its return
type `io::Result<KeyEvent>` has no `None` at all. -/
theorem read_key_timeout_counterexample :
    Reader.read_key (List.replicate 100 Slot.noInput) = ReadOutcome.stillLooping := by
  decide

/-- Claim C4 (amended): each `event::poll` inside `read_key` is bounded
by its 500 ms timeout, but `read_key` itself never returns a
timeout/None result: after any number of empty poll windows it is still
looping, and it returns only once a key event arrives. -/
theorem read_key_loops_until_key (n : Nat) (k : KeyEvent) (rest : List Slot) :
    Reader.read_key (List.replicate n Slot.noInput) = ReadOutcome.stillLooping ∧
    Reader.read_key (List.replicate n Slot.noInput ++ Slot.key k :: rest) =
      ReadOutcome.returned (Except.ok k) := by
  induction n with
  | zero => exact ⟨rfl, rfl⟩
  | succ m ih => simpa [List.replicate_succ, Reader.read_key] using ih

/-- Claim C5 (counterexample): when the very first poll fails,
`Editor::run` returns that error with the terminal STILL IN RAW MODE —
the `?` operator skips the `disable_raw_mode()` on the Ok path — refuting
the claim that terminal-mode teardown happens before the error is
returned to `run`'s caller. -/
theorem run_error_no_teardown :
    Editor.run okSys [Slot.pollErr IoErr.fault] ⟨TermMode.normal, none⟩ =
      RunResult.returned (Except.error IoErr.fault)
        ⟨TermMode.raw, some TermMode.normal⟩ ∧
    TermMode.raw ≠ TermMode.normal := by
  decide

/-- Claim C5 (amended): an I/O failure while polling or reading is never
retried — the first error propagates immediately out of the loop and
`run` returns it, whatever input would have followed — but raw mode is
still enabled at the moment `run` returns; it is disabled only when the
owning `Editor` is dropped afterwards (`Drop::drop`). -/
theorem run_error_propagates (sys : TermMode → Except TermError Unit)
    (e : IoErr) (rest : List Slot) (t : TermState)
    (hs : ∀ m, sys m = Except.ok ()) (ht : t.savedOriginal = none) :
    Editor.run sys (Slot.pollErr e :: rest) t =
      RunResult.returned (Except.error e) ⟨TermMode.raw, some t.mode⟩ ∧
    Editor.run sys (Slot.readErr e :: rest) t =
      RunResult.returned (Except.error e) ⟨TermMode.raw, some t.mode⟩ ∧
    Editor.dropEditor sys ⟨TermMode.raw, some t.mode⟩ = PanicOr.ok ⟨t.mode, none⟩ := by
  refine ⟨?_, ?_, ?_⟩
  · simp [Editor.run, Editor.enable_raw_mode, crosstermEnable, ht, hs, Editor.runLoop]
  · simp [Editor.run, Editor.enable_raw_mode, crosstermEnable, ht, hs, Editor.runLoop]
  · simp [Editor.dropEditor, Editor.disable_raw_mode, crosstermDisable, hs]

/-- Concrete instance of `run_error_propagates`: a failing first poll on
a healthy terminal starting in normal mode. -/
theorem run_error_propagates_witness :
    Editor.run okSys [Slot.pollErr IoErr.broken] ⟨TermMode.normal, none⟩ =
      RunResult.returned (Except.error IoErr.broken)
        ⟨TermMode.raw, some TermMode.normal⟩ ∧
    Editor.run okSys [Slot.readErr IoErr.broken] ⟨TermMode.normal, none⟩ =
      RunResult.returned (Except.error IoErr.broken)
        ⟨TermMode.raw, some TermMode.normal⟩ ∧
    Editor.dropEditor okSys ⟨TermMode.raw, some TermMode.normal⟩ =
      PanicOr.ok ⟨TermMode.normal, none⟩ :=
  run_error_propagates okSys IoErr.broken [] ⟨TermMode.normal, none⟩
    (fun _ => rfl) rfl

/-- Claim C6 (counterexample): on a terminal that does not support raw
mode, `Editor::enable_raw_mode` PANICS (the `expect` with message
"enable_raw_mode error") — an unconditional abort of normal control flow
— rather than returning a `TerminalError` value; its Rust signature
returns `()`, so it has no error case to return. -/
theorem enable_error_counterexample :
    Editor.enable_raw_mode failSys ⟨TermMode.normal, none⟩ =
      PanicOr.panicked PanicMsg.enableRawModeError := by
  decide

/-- Claim C6 (amended): whenever the underlying raw-mode syscall fails —
in particular when raw mode is unsupported — `enable_raw_mode` panics
with the "enable_raw_mode error" message instead of returning an error
value to its caller. -/
theorem enable_panics_on_unsupported (sys : TermMode → Except TermError Unit)
    (s : TermState) (e : TermError)
    (hso : s.savedOriginal = none) (hs : sys TermMode.raw = Except.error e) :
    Editor.enable_raw_mode sys s = PanicOr.panicked PanicMsg.enableRawModeError := by
  simp [Editor.enable_raw_mode, crosstermEnable, hso, hs]

/-- Concrete instance of `enable_panics_on_unsupported` on an
unsupported terminal. -/
theorem enable_panics_on_unsupported_witness :
    Editor.enable_raw_mode failSys ⟨TermMode.raw, none⟩ =
      PanicOr.panicked PanicMsg.enableRawModeError :=
  enable_panics_on_unsupported failSys ⟨TermMode.raw, none⟩
    TermError.notSupported rfl rfl

/-- Claim C7 (counterexample): invoked with no file-path argument (only
the program name, paths abstracted as numbers), `main` exits with code 0
and prints nothing — there is no non-zero exit and no message about the
missing file argument. -/
theorem main_no_args_counterexample :
    mainFn okSys ([0] : List Nat) [] ⟨TermMode.normal, none⟩ =
      PanicOr.ok (⟨0, []⟩, ⟨TermMode.normal, none⟩) := by
  decide

/-- Claim C7 (amended): with no path argument `main` does nothing — exit
code 0, no output, terminal untouched; with a path argument it prints
`open a file: <path>` WITHOUT opening the file, switches the terminal to
raw mode, and echoes each stdin byte until a `q` byte (or end of input). -/
theorem main_args_behavior {α : Type} (sys : TermMode → Except TermError Unit)
    (args : List α) (stdin : List Nat) (t : TermState) :
    (args.length ≤ 1 → mainFn sys args stdin t = PanicOr.ok (⟨0, []⟩, t)) ∧
    (∀ h : 1 < args.length, t.savedOriginal = none → sys TermMode.raw = Except.ok () →
      mainFn sys args stdin t =
        PanicOr.ok (⟨0, OutLine.openFile (args.get ⟨1, h⟩) :: echoLoop stdin⟩,
          ⟨TermMode.raw, some t.mode⟩)) := by
  constructor
  · intro hle
    have hnot : ¬ 1 < args.length := by omega
    simp [mainFn, hnot]
  · intro h hso hs
    simp [mainFn, h, crosstermEnable, hso, hs]

/-- Concrete instances of `main_args_behavior`: no-path invocation, and a
with-path invocation whose stdin is the bytes `7, q, 8` (the echo stops
at `q`). -/
theorem main_args_behavior_witness :
    mainFn okSys ([5] : List Nat) [7] ⟨TermMode.normal, none⟩ =
      PanicOr.ok (⟨0, []⟩, ⟨TermMode.normal, none⟩) ∧
    mainFn okSys ([5, 9] : List Nat) [7, 113, 8] ⟨TermMode.normal, none⟩ =
      PanicOr.ok (⟨0, [OutLine.openFile 9, OutLine.readByte 7]⟩,
        ⟨TermMode.raw, some TermMode.normal⟩) :=
  ⟨(main_args_behavior okSys [5] [7] ⟨TermMode.normal, none⟩).1 (by decide),
   (main_args_behavior okSys [5, 9] [7, 113, 8] ⟨TermMode.normal, none⟩).2
      (by decide) rfl rfl⟩

/-- Claim C8 (counterexample): one call of `Output::refresh_screen`
performs four terminal writes (one per `execute!` invocation), not
exactly one. -/
theorem refresh_screen_not_one_write :
    Output.refresh_screen.length = 4 ∧ Output.refresh_screen.length ≠ 1 := by
  decide

/-- Claim C8 (amended): `refresh_screen` emits its frame as four
separate writes — clear-all, move-to-origin, clear-all, move-to-origin —
because `clear_screen` issues two `execute!` calls and runs twice (once
directly, once via `draw_rows`); the frame is never flushed as a single
write. -/
theorem refresh_screen_four_writes :
    Output.refresh_screen =
      [TermWrite.clearAll, TermWrite.moveTo 0 0,
       TermWrite.clearAll, TermWrite.moveTo 0 0] := rfl

/-- Unfolding of `QuitRead` by one slot: the head is itself the quit key
event, or the head lets the loop continue and the tail satisfies
`QuitRead`. -/
theorem quitRead_cons (s : Slot) (rest : List Slot) :
    QuitRead (s :: rest) ↔
      (∃ k, s = Slot.key k ∧ isQuitKey k = true) ∨
      (continueSlot s = true ∧ QuitRead rest) := by
  constructor
  · rintro ⟨pre, k, post, heq, hq, hpre⟩
    cases pre with
    | nil =>
      simp only [List.nil_append] at heq
      injection heq with h1 h2
      exact Or.inl ⟨k, h1, hq⟩
    | cons p pre2 =>
      simp only [List.cons_append] at heq
      injection heq with h1 h2
      refine Or.inr ⟨?_, pre2, k, post, h2, hq,
        fun x hx => hpre x (List.mem_cons_of_mem p hx)⟩
      rw [h1]
      exact hpre p (List.mem_cons_self p pre2)
  · rintro (⟨k, rfl, hq⟩ | ⟨hs, pre, k, post, heq, hq, hpre⟩)
    · exact ⟨[], k, rest, rfl, hq, by simp⟩
    · refine ⟨s :: pre, k, post, by rw [heq, List.cons_append], hq, ?_⟩
      intro x hx
      rcases List.mem_cons.mp hx with h | h
      · rw [h]; exact hs
      · exact hpre x h

/-- The loop of `Editor::run` breaks out (returning `Ok(())`) exactly on
the streams satisfying `QuitRead`. -/
theorem runLoop_ok_iff (slots : List Slot) :
    Editor.runLoop slots = RunOutcome.returned (Except.ok ()) ↔ QuitRead slots := by
  induction slots with
  | nil =>
    constructor
    · intro h
      exact absurd h (by decide)
    · rintro ⟨pre, k, post, heq, -, -⟩
      cases pre <;> simp at heq
  | cons s rest ih =>
    rw [quitRead_cons]
    cases s with
    | pollErr e => simp [Editor.runLoop, continueSlot]
    | readErr e => simp [Editor.runLoop, continueSlot]
    | noInput => simpa [Editor.runLoop, continueSlot] using ih
    | nonKey => simpa [Editor.runLoop, continueSlot] using ih
    | key k =>
      cases hq : isQuitKey k with
      | true =>
        constructor
        · intro _
          exact Or.inl ⟨k, rfl, hq⟩
        · intro _
          simp [Editor.runLoop, hq]
      | false =>
        rw [show Editor.runLoop (Slot.key k :: rest) = Editor.runLoop rest from
          by simp [Editor.runLoop, hq]]
        rw [ih]
        simp [continueSlot, hq]

/-- Claim C9: the loop of `Editor::run` terminates with `Ok(())` exactly
when a key event with code `Char('q')` and empty modifiers is read while
it is still looping (`QuitRead`); and a key event that is not the plain
`q` — `q` with modifiers, or any other key — leaves the loop running,
with nothing changed (the `Editor` itself is a unit struct, so there is
no further state to change). -/
theorem run_loop_quit (slots : List Slot) (k : KeyEvent) (rest : List Slot)
    (hk : isQuitKey k = false) :
    (Editor.runLoop slots = RunOutcome.returned (Except.ok ()) ↔ QuitRead slots) ∧
    Editor.runLoop (Slot.key k :: rest) = Editor.runLoop rest :=
  ⟨runLoop_ok_iff slots, by simp [Editor.runLoop, hk]⟩

/-- Concrete instance of `run_loop_quit`: a single plain-`q` key event,
with Ctrl-`q` as the non-quitting key. -/
theorem run_loop_quit_witness :
    (Editor.runLoop [Slot.key ⟨KeyCode.char 'q', KeyModifiers.NONE⟩] =
        RunOutcome.returned (Except.ok ()) ↔
      QuitRead [Slot.key ⟨KeyCode.char 'q', KeyModifiers.NONE⟩]) ∧
    Editor.runLoop
        [Slot.key ⟨KeyCode.char 'q', ⟨false, true, false, false, false, false⟩⟩] =
      Editor.runLoop [] :=
  run_loop_quit [Slot.key ⟨KeyCode.char 'q', KeyModifiers.NONE⟩]
    ⟨KeyCode.char 'q', ⟨false, true, false, false, false, false⟩⟩ [] (by decide)

end TinyEditor
